/-
Verification of the ASSelect airspace-conversion front end
(src/yaixm.rs and src/main.rs) against its specification.

Rust strings are embedded as `List Char` (the literals involved are ASCII,
so byte indexing and char indexing coincide).  A Rust panic (a failed
`unwrap`, an out-of-range slice or index) is modelled as `Option.none`;
`f64` arithmetic on the short decimal literals involved is modelled
exactly over `ℚ`.
-/
import Mathlib

namespace Asselect

/-! ## Geo primitives (src/yaixm.rs) -/

/-- Numeric value of a decimal digit character. -/
def dval (c : Char) : Nat := c.toNat - 48

/-- Split a character list into its leading run of decimal digits and the rest. -/
def takeDigits : List Char → List Char × List Char
  | [] => ([], [])
  | c :: t =>
    if c.isDigit then
      let p := takeDigits t
      (c :: p.1, p.2)
    else ([], c :: t)

/-- Value of a digit string read as a decimal integer. -/
def digitsVal (w : List Char) : Nat := w.foldl (fun a c => 10 * a + dval c) 0

/-- Value of a digit string read as the fractional part after a decimal point. -/
def fracVal (w : List Char) : ℚ := w.foldr (fun c a => ((dval c : ℚ) + a) / 10) 0

/-- Exponent suffix of an `f64` literal: either empty (exponent 0) or
`e`/`E`, an optional sign, and a non-empty digit run consuming the rest. -/
def parseExp : List Char → Option Int
  | [] => some 0
  | c :: t =>
    if c = 'e' ∨ c = 'E' then
      match t with
      | '+' :: t2 =>
        let p := takeDigits t2
        if p.1 ≠ [] ∧ p.2 = [] then some (digitsVal p.1) else none
      | '-' :: t2 =>
        let p := takeDigits t2
        if p.1 ≠ [] ∧ p.2 = [] then some (-(digitsVal p.1 : Int)) else none
      | t2 =>
        let p := takeDigits t2
        if p.1 ≠ [] ∧ p.2 = [] then some (digitsVal p.1) else none
    else none

/-- Scale a significand by a power of ten. -/
def applyExp (q : ℚ) : Int → ℚ
  | Int.ofNat n => q * 10 ^ n
  | Int.negSucc n => q / 10 ^ (n + 1)

/-- Unsigned part of Rust's `str::parse::<f64>` grammar:
`Digits [. [Digits]] [Exp]` or `. Digits [Exp]`. -/
def parseNum (w : List Char) : Option ℚ :=
  let p := takeDigits w
  match p.2 with
  | '.' :: r2 =>
    let q := takeDigits r2
    if p.1 = [] ∧ q.1 = [] then none
    else
      match parseExp q.2 with
      | some e => some (applyExp ((digitsVal p.1 : ℚ) + fracVal q.1) e)
      | none => none
  | r =>
    if p.1 = [] then none
    else
      match parseExp r with
      | some e => some (applyExp (digitsVal p.1 : ℚ) e)
      | none => none

/-- Model of Rust `str::parse::<f64>` over `ℚ`: an optional sign followed by
a finite decimal number with optional exponent.  The non-finite special
forms (`inf`, `infinity`, `nan`, case-insensitive) have no value in `ℚ` and
are outside this model; `is_special_f64` recognises them so theorems can
exclude them explicitly. -/
def parse_f64 : List Char → Option ℚ
  | [] => none
  | c :: t =>
    if c = '+' then parseNum t
    else if c = '-' then Option.map (fun q => -q) (parseNum t)
    else parseNum (c :: t)

/-- The non-finite special forms accepted by Rust `str::parse::<f64>`
but not representable in `ℚ`. -/
def is_special_f64 (w : List Char) : Bool :=
  let l := w.map Char.toLower
  let core :=
    match l with
    | '+' :: t => t
    | '-' :: t => t
    | t => t
  core = ['i', 'n', 'f'] ∨ core = ['i', 'n', 'f', 'i', 'n', 'i', 't', 'y'] ∨
    core = ['n', 'a', 'n']

/-- Model of the Rust string slice `s[a..b]`: panics (`none`) unless
`a ≤ b ≤ s.len()`. -/
def slice (s : List Char) (a b : Nat) : Option (List Char) :=
  if a ≤ b ∧ b ≤ s.length then some ((s.drop a).take (b - a)) else none

/-- Embedding of `latlon_to_degrees` (src/yaixm.rs lines 247-267).
Converts a lat/lon string to floating point degrees; the `unwrap` panics on
parse failure and the panics on out-of-range slicing/indexing are modelled
as `none`. -/
def latlon_to_degrees (latlon : List Char) : Option (ℚ × ℚ) := do
  let w1 ← slice latlon 0 2
  let deg1 ← parse_f64 w1
  let w2 ← slice latlon 2 4
  let min1 ← parse_f64 w2
  let w3 ← slice latlon 4 6
  let sec1 ← parse_f64 w3
  let lat0 := deg1 + min1 / 60 + sec1 / 3600
  let c6 ← latlon[6]?
  let lat := if c6 = 'S' then -lat0 else lat0
  let w4 ← slice latlon 8 11
  let deg2 ← parse_f64 w4
  let w5 ← slice latlon 11 13
  let min2 ← parse_f64 w5
  let w6 ← slice latlon 13 15
  let sec2 ← parse_f64 w6
  let lon0 := deg2 + min2 / 60 + sec2 / 3600
  let c15 ← latlon[15]?
  let lon := if c15 = 'W' then -lon0 else lon0
  pure (lat, lon)

/-- Model of Rust `str::split(" ")`: splits at every single space,
keeping empty pieces, and yields at least one piece. -/
def splitOnSpace : List Char → List (List Char)
  | [] => [[]]
  | c :: t =>
    if c = ' ' then [] :: splitOnSpace t
    else
      match splitOnSpace t with
      | [] => [[c]]
      | h :: r => (c :: h) :: r

/-- Embedding of `radius_to_metres` (src/yaixm.rs lines 270-279).
Converts a radius string to floating point metres; the `unwrap` panic on an
unparsable magnitude and the index panic when there is no second token are
modelled as `none`. -/
def radius_to_metres (radius : List Char) : Option ℚ := do
  let parts := splitOnSpace radius
  let p0 ← parts[0]?
  let dist ← parse_f64 p0
  let p1 ← parts[1]?
  if p1 = "nm".data then pure (dist * 1852) else pure (dist * 1000)

/-! ## Dataset model (src/yaixm.rs) -/

/-- ICAO airspace class (src/yaixm.rs `IcaoClass`). -/
inductive IcaoClass
  | A | B | C | D | E | F | G
deriving DecidableEq

/-- Primary classification (src/yaixm.rs `IcaoType`). -/
inductive IcaoType
  | Atz | Awy | Cta | Ctr | D | DOther | Other | P | R | Tma
deriving DecidableEq

/-- Local classification (src/yaixm.rs `LocalType`). -/
inductive LocalType
  | Dz | Glider | Gvs | Hirta | Ils | Laser | Matz | NoAtz | Obstacle
  | Rat | Rmz | Ul | Tmz
deriving DecidableEq

/-- Applicability rule (src/yaixm.rs `Rule`). -/
inductive Rule
  | Intense | Loa | NoSsr | Notam | Raz | Rmz | Si | Tra | Tmz
deriving DecidableEq

/-- Circle boundary segment (src/yaixm.rs `Circle`). -/
structure Circle where
  centre : String
  radius : String
deriving DecidableEq

/-- Arc boundary segment (src/yaixm.rs `Arc`). -/
structure Arc where
  centre : String
  dir : String
  radius : String
  «to» : String
deriving DecidableEq

/-- Boundary segment (src/yaixm.rs `Boundary`). -/
inductive Boundary
  | circle (c : Circle)
  | arc (a : Arc)
  | line (pts : List String)
deriving DecidableEq

/-- Airspace volume (src/yaixm.rs `Volume`); the `f64` frequency is
modelled over `ℚ`. -/
structure Volume where
  id : Option String
  name : Option String
  lower : String
  upper : String
  icao_class : Option IcaoClass
  rules : Option (List Rule)
  seq : Option String
  frequency : Option ℚ
  boundary : List Boundary
deriving DecidableEq

/-- Airspace feature (src/yaixm.rs `Feature`). -/
structure Feature where
  id : Option String
  name : String
  icao_type : IcaoType
  local_type : Option LocalType
  icao_class : Option IcaoClass
  rules : Option (List Rule)
  geometry : List Volume
deriving DecidableEq

/-- Geometry replacement entry (src/yaixm.rs `Replace`). -/
structure Replace where
  id : String
  geometry : List Volume
deriving DecidableEq

/-- Local-agreement area (src/yaixm.rs `LoaArea`). -/
structure LoaArea where
  name : String
  add : List Feature
  replace : Option (List Replace)
deriving DecidableEq

/-- Local agreement (src/yaixm.rs `Loa`). -/
structure Loa where
  name : String
  default : Option Bool
  areas : List LoaArea
deriving DecidableEq

/-- Obstacle record (src/yaixm.rs `Obstacle`). -/
structure Obstacle where
  elevation : String
  name : String
  position : String
deriving DecidableEq

/-- Service-frequency record (src/yaixm.rs `Service`); the `f64`
frequency is modelled over `ℚ`. -/
structure Service where
  callsign : String
  frequency : ℚ
  controls : List String
deriving DecidableEq

/-- Release metadata (src/yaixm.rs `Release`); the `u8` schema version is
modelled as `ℕ`. -/
structure Release where
  airac_date : String
  timestamp : String
  schema_version : ℕ
  note : String
  commit : String
deriving DecidableEq

/-- Root dataset (src/yaixm.rs `Yaixm`). -/
structure Yaixm where
  airspace : List Feature
  rat : List Feature
  loa : List Loa
  obstacle : List Obstacle
  service : List Service
  release : Release
deriving DecidableEq

/-! ## Feature index (src/yaixm.rs lines 211-244) -/

/-- Embedding of `gliding_sites` (src/yaixm.rs lines 211-219): names of
primary airspace features with `icao_type == Other` and
`local_type == Some(Glider)`. -/
def gliding_sites (y : Yaixm) : List String :=
  (y.airspace.filter fun x =>
      x.icao_type == IcaoType.Other && x.local_type == some LocalType.Glider).map
    fun x => x.name

/-- Embedding of `rat_names` (src/yaixm.rs lines 221-225): names of all
features in the `rat` collection. -/
def rat_names (y : Yaixm) : List String :=
  y.rat.map fun x => x.name

/-- Embedding of `loa_names` (src/yaixm.rs lines 227-234): names of local
agreements for which `!x.default.unwrap_or(false)`. -/
def loa_names (y : Yaixm) : List String :=
  (y.loa.filter fun x => !(x.default.getD false)).map fun x => x.name

/-- Embedding of `wave_names` (src/yaixm.rs lines 236-244): names of
primary airspace features with `icao_type == DOther` and
`local_type == Some(Glider)`. -/
def wave_names (y : Yaixm) : List String :=
  (y.airspace.filter fun x =>
      x.icao_type == IcaoType.DOther && x.local_type == some LocalType.Glider).map
    fun x => x.name

/-- The user-selectable local agreements as the specification words them:
agreements whose default flag is not `true` (an absent flag counts as
`false`), in declaration order.  Stated from the spec for comparison with
`loa_names`. -/
def loa_names_spec (y : Yaixm) : List String :=
  (y.loa.filter fun l => decide (l.default ≠ some true)).map Loa.name

/-! ## Presentation lists (src/main.rs `MainView`, lines 89-98)

`MainView` computes the four selectable-name lists and then calls
`Vec::sort` (stable, ascending lexicographic order; modelled by
`List.insertionSort`) on `loa_names`, `wave_names` and `gliding_sites`
before display, while `rat_names` is displayed as computed. -/

/-- RAT names as displayed (src/main.rs line 90: never sorted). -/
def displayed_rat_names (y : Yaixm) : List String :=
  rat_names y

/-- LOA names as displayed (src/main.rs lines 91, 93: sorted). -/
def displayed_loa_names (y : Yaixm) : List String :=
  List.insertionSort (· ≤ ·) (loa_names y)

/-- Wave-box names as displayed (src/main.rs lines 92, 94: sorted). -/
def displayed_wave_names (y : Yaixm) : List String :=
  List.insertionSort (· ≤ ·) (wave_names y)

/-- Gliding-site names as displayed (src/main.rs lines 96-97: sorted). -/
def displayed_gliding_sites (y : Yaixm) : List String :=
  List.insertionSort (· ≤ ·) (gliding_sites y)

/-! ## Download assembly (src/main.rs lines 38-43 and 122-157) -/

/-- Overlay text fetched by the host (src/main.rs `OverlayData`); a `None`
field records a failed fetch. -/
structure OverlayData where
  overlay_195 : Option String
  overlay_105 : Option String
  overlay_atzdz : Option String
deriving DecidableEq

/-- Modelled from the spec: the overlay choice enumeration `Overlay` lives
in the missing module src/settings.rs; its three variants `FL195`,
`FL105` and `AtzDz` are fixed by the match in src/main.rs lines 136-140. -/
inductive Overlay
  | FL195 | FL105 | AtzDz
deriving DecidableEq

/-- The overlay field selected by the match in src/main.rs lines 136-140. -/
def overlay_pick (o : Overlay) (d : OverlayData) : Option String :=
  match o with
  | Overlay.FL195 => d.overlay_195
  | Overlay.FL105 => d.overlay_105
  | Overlay.AtzDz => d.overlay_atzdz

/-- The overlay part `od` of the download (src/main.rs lines 134-147):
the fetched overlay text, or a placeholder comment when the overlay data
resource is not yet loaded or the selected overlay's fetch failed. -/
def overlay_text (so : Option Overlay) (ov : Option OverlayData) : String :=
  match so with
  | some o =>
    match ov with
    | some d => (overlay_pick o d).getD "* Missing overlay data"
    | none => "* Overlay data not loaded"
  | none => ""

/-- The downloaded text `oa + od` (src/main.rs line 150), with the
conversion output `oa` of the missing module src/convert.rs taken as an
opaque string input. -/
def download_data (oa : String) (so : Option Overlay) (ov : Option OverlayData) : String :=
  oa ++ overlay_text so ov

/-! ## Sample dataset used for concrete checks -/

/-- A feature with the given name and classification and no geometry. -/
def mkFeature (n : String) (t : IcaoType) (lt : Option LocalType) : Feature :=
  { id := none, name := n, icao_type := t, local_type := lt, icao_class := none,
    rules := none, geometry := [] }

/-- Release metadata for the sample dataset. -/
def sampleRelease : Release :=
  { airac_date := "2024-01-25T00:00:00Z", timestamp := "2024-01-20T00:00:00Z",
    schema_version := 1, note := "sample", commit := "0000000" }

/-- A dataset whose RAT collection lists a name starting with `B` before a
name starting with `A`. -/
def sampleYaixm : Yaixm :=
  { airspace := [mkFeature "LASHAM" IcaoType.Other (some LocalType.Glider)],
    rat := [mkFeature "RAT B" IcaoType.P (some LocalType.Rat),
            mkFeature "RAT A" IcaoType.P (some LocalType.Rat)],
    loa := [], obstacle := [], service := [], release := sampleRelease }

/-- The index spans of the six numeric fields read by `latlon_to_degrees`. -/
def coordSpans : List (Nat × Nat) := [(0, 2), (2, 4), (4, 6), (8, 11), (11, 13), (13, 15)]

/-- The substring of `s` covered by span `p`: the value of the Rust slice
`s[p.1..p.2]` whenever that slice is in range. -/
def spanSlice (s : List Char) (p : Nat × Nat) : List Char :=
  (s.drop p.1).take (p.2 - p.1)

/-! ## Parsing lemmas -/

lemma takeDigits_digits (w : List Char) (h : ∀ c ∈ w, c.isDigit) :
    takeDigits w = (w, []) := by
  induction w with
  | nil => rfl
  | cons c t ih =>
    have hc : c.isDigit := h c (List.mem_cons_self c t)
    have ht := ih fun x hx => h x (List.mem_cons_of_mem c hx)
    simp [takeDigits, hc, ht]

lemma applyExp_zero (q : ℚ) : applyExp q 0 = q := by
  show q * 10 ^ 0 = q
  simp

lemma parseNum_digits (w : List Char) (h : ∀ c ∈ w, c.isDigit) (hne : w ≠ []) :
    parseNum w = some (digitsVal w : ℚ) := by
  have ht := takeDigits_digits w h
  simp only [parseNum, ht, if_neg hne, parseExp, applyExp_zero]

lemma isDigit_ne_plus {c : Char} (h : c.isDigit) : ¬c = '+' := by
  intro he
  rw [he] at h
  exact absurd h (by decide)

lemma isDigit_ne_minus {c : Char} (h : c.isDigit) : ¬c = '-' := by
  intro he
  rw [he] at h
  exact absurd h (by decide)

lemma parse_f64_digits (w : List Char) (h : ∀ c ∈ w, c.isDigit) (hne : w ≠ []) :
    parse_f64 w = some (digitsVal w : ℚ) := by
  cases w with
  | nil => exact absurd rfl hne
  | cons c t =>
    have hc : c.isDigit := h c (List.mem_cons_self c t)
    simp only [parse_f64, if_neg (isDigit_ne_plus hc), if_neg (isDigit_ne_minus hc)]
    exact parseNum_digits _ h hne

lemma latlon_explicit
    (a1 a2 b1 b2 c1 c2 : Char) (hlat sep : Char)
    (d1 d2 d3 e1 e2 f1 f2 : Char) (hlon : Char) (rest : List Char)
    (hd : ∀ c ∈ [a1, a2, b1, b2, c1, c2, d1, d2, d3, e1, e2, f1, f2], c.isDigit) :
    latlon_to_degrees
        (a1 :: a2 :: b1 :: b2 :: c1 :: c2 :: hlat :: sep ::
          d1 :: d2 :: d3 :: e1 :: e2 :: f1 :: f2 :: hlon :: rest) =
      some
        ((if hlat = 'S' then
            -((digitsVal [a1, a2] : ℚ) + (digitsVal [b1, b2] : ℚ) / 60 +
              (digitsVal [c1, c2] : ℚ) / 3600)
          else
            (digitsVal [a1, a2] : ℚ) + (digitsVal [b1, b2] : ℚ) / 60 +
              (digitsVal [c1, c2] : ℚ) / 3600),
         (if hlon = 'W' then
            -((digitsVal [d1, d2, d3] : ℚ) + (digitsVal [e1, e2] : ℚ) / 60 +
              (digitsVal [f1, f2] : ℚ) / 3600)
          else
            (digitsVal [d1, d2, d3] : ℚ) + (digitsVal [e1, e2] : ℚ) / 60 +
              (digitsVal [f1, f2] : ℚ) / 3600)) := by
  have hlen : ∀ b : Nat, b ≤ 16 →
      b ≤ (a1 :: a2 :: b1 :: b2 :: c1 :: c2 :: hlat :: sep ::
        d1 :: d2 :: d3 :: e1 :: e2 :: f1 :: f2 :: hlon :: rest).length := by
    intro b hb
    simp only [List.length_cons]
    omega
  have s1 : slice (a1 :: a2 :: b1 :: b2 :: c1 :: c2 :: hlat :: sep ::
      d1 :: d2 :: d3 :: e1 :: e2 :: f1 :: f2 :: hlon :: rest) 0 2 = some [a1, a2] := by
    unfold slice
    rw [if_pos ⟨by omega, hlen 2 (by omega)⟩]
    rfl
  have s2 : slice (a1 :: a2 :: b1 :: b2 :: c1 :: c2 :: hlat :: sep ::
      d1 :: d2 :: d3 :: e1 :: e2 :: f1 :: f2 :: hlon :: rest) 2 4 = some [b1, b2] := by
    unfold slice
    rw [if_pos ⟨by omega, hlen 4 (by omega)⟩]
    rfl
  have s3 : slice (a1 :: a2 :: b1 :: b2 :: c1 :: c2 :: hlat :: sep ::
      d1 :: d2 :: d3 :: e1 :: e2 :: f1 :: f2 :: hlon :: rest) 4 6 = some [c1, c2] := by
    unfold slice
    rw [if_pos ⟨by omega, hlen 6 (by omega)⟩]
    rfl
  have s4 : slice (a1 :: a2 :: b1 :: b2 :: c1 :: c2 :: hlat :: sep ::
      d1 :: d2 :: d3 :: e1 :: e2 :: f1 :: f2 :: hlon :: rest) 8 11 = some [d1, d2, d3] := by
    unfold slice
    rw [if_pos ⟨by omega, hlen 11 (by omega)⟩]
    rfl
  have s5 : slice (a1 :: a2 :: b1 :: b2 :: c1 :: c2 :: hlat :: sep ::
      d1 :: d2 :: d3 :: e1 :: e2 :: f1 :: f2 :: hlon :: rest) 11 13 = some [e1, e2] := by
    unfold slice
    rw [if_pos ⟨by omega, hlen 13 (by omega)⟩]
    rfl
  have s6 : slice (a1 :: a2 :: b1 :: b2 :: c1 :: c2 :: hlat :: sep ::
      d1 :: d2 :: d3 :: e1 :: e2 :: f1 :: f2 :: hlon :: rest) 13 15 = some [f1, f2] := by
    unfold slice
    rw [if_pos ⟨by omega, hlen 15 (by omega)⟩]
    rfl
  have p1 : parse_f64 [a1, a2] = some (digitsVal [a1, a2] : ℚ) :=
    parse_f64_digits _ (fun c hc => hd c (by simp at hc ⊢; tauto)) (by simp)
  have p2 : parse_f64 [b1, b2] = some (digitsVal [b1, b2] : ℚ) :=
    parse_f64_digits _ (fun c hc => hd c (by simp at hc ⊢; tauto)) (by simp)
  have p3 : parse_f64 [c1, c2] = some (digitsVal [c1, c2] : ℚ) :=
    parse_f64_digits _ (fun c hc => hd c (by simp at hc ⊢; tauto)) (by simp)
  have p4 : parse_f64 [d1, d2, d3] = some (digitsVal [d1, d2, d3] : ℚ) :=
    parse_f64_digits _ (fun c hc => hd c (by simp at hc ⊢; tauto)) (by simp)
  have p5 : parse_f64 [e1, e2] = some (digitsVal [e1, e2] : ℚ) :=
    parse_f64_digits _ (fun c hc => hd c (by simp at hc ⊢; tauto)) (by simp)
  have p6 : parse_f64 [f1, f2] = some (digitsVal [f1, f2] : ℚ) :=
    parse_f64_digits _ (fun c hc => hd c (by simp at hc ⊢; tauto)) (by simp)
  simp only [latlon_to_degrees, s1, p1, s2, p2, s3, p3, s4, p4, s5, p5, s6, p6,
    List.getElem?_cons_zero, List.getElem?_cons_succ,
    Option.bind_eq_bind, Option.some_bind, Option.pure_def]

lemma slice_inv {s : List Char} {a b : Nat} {w : List Char}
    (h : slice s a b = some w) : w = spanSlice s (a, b) := by
  unfold slice at h
  split at h
  · exact (Option.some.inj h).symm
  · exact absurd h (by simp)

lemma splitOnSpace_no_space (u : List Char) (h : ' ' ∉ u) : splitOnSpace u = [u] := by
  induction u with
  | nil => rfl
  | cons c t ih =>
    have hc : ¬c = ' ' := by
      intro e
      exact h (by simp [e])
    have ht := ih fun m => h (List.mem_cons_of_mem c m)
    simp [splitOnSpace, hc, ht]

lemma splitOnSpace_append (m r : List Char) (h : ' ' ∉ m) :
    splitOnSpace (m ++ ' ' :: r) = m :: splitOnSpace r := by
  induction m with
  | nil => simp [splitOnSpace]
  | cons c t ih =>
    have hc : ¬c = ' ' := by
      intro e
      exact h (by simp [e])
    have ht := ih fun mm => h (List.mem_cons_of_mem c mm)
    simp [splitOnSpace, hc, ht]

/-! ## C1, C9: the coordinate formula -/

/-- C1: For every well-formed 16-character coordinate literal,
`latlon_to_degrees` returns signed decimal degrees computed as
degrees + minutes/60 + seconds/3600 for each of latitude and longitude,
negated exactly when the hemisphere letter is `S` (latitude) or `W`
(longitude); in particular the literal `"515812N 0001550W"` yields exactly
`(51.97, -19/72)`, and `-19/72 ≈ -0.2639`. -/
theorem c1_coordinate_formula
    (a1 a2 b1 b2 c1 c2 : Char) (hlat : Char)
    (d1 d2 d3 e1 e2 f1 f2 : Char) (hlon : Char)
    (hd : ∀ c ∈ [a1, a2, b1, b2, c1, c2, d1, d2, d3, e1, e2, f1, f2], c.isDigit)
    (hNS : hlat = 'N' ∨ hlat = 'S') (hEW : hlon = 'E' ∨ hlon = 'W') :
    latlon_to_degrees
        [a1, a2, b1, b2, c1, c2, hlat, ' ', d1, d2, d3, e1, e2, f1, f2, hlon] =
      some
        ((if hlat = 'S' then -1 else 1) *
           ((digitsVal [a1, a2] : ℚ) + (digitsVal [b1, b2] : ℚ) / 60 +
             (digitsVal [c1, c2] : ℚ) / 3600),
         (if hlon = 'W' then -1 else 1) *
           ((digitsVal [d1, d2, d3] : ℚ) + (digitsVal [e1, e2] : ℚ) / 60 +
             (digitsVal [f1, f2] : ℚ) / 3600)) ∧
    latlon_to_degrees "515812N 0001550W".data = some (5197 / 100, -(19 / 72)) := by
  constructor
  · have h := latlon_explicit a1 a2 b1 b2 c1 c2 hlat ' ' d1 d2 d3 e1 e2 f1 f2 hlon [] hd
    rw [show ([a1, a2, b1, b2, c1, c2, hlat, ' ', d1, d2, d3, e1, e2, f1, f2, hlon] :
        List Char) = a1 :: a2 :: b1 :: b2 :: c1 :: c2 :: hlat :: ' ' ::
        d1 :: d2 :: d3 :: e1 :: e2 :: f1 :: f2 :: hlon :: [] from rfl, h]
    by_cases hS : hlat = 'S' <;> by_cases hW : hlon = 'W' <;>
      simp [hS, hW, neg_mul, one_mul]
  · have h := latlon_explicit '5' '1' '5' '8' '1' '2' 'N' ' ' '0' '0' '0' '1' '5' '5' '0' 'W'
      [] (by decide)
    have e : "515812N 0001550W".data = '5' :: '1' :: '5' :: '8' :: '1' :: '2' :: 'N' :: ' ' ::
        '0' :: '0' :: '0' :: '1' :: '5' :: '5' :: '0' :: 'W' :: [] := rfl
    rw [e, h, if_neg (by decide), if_pos rfl]
    norm_num [show digitsVal ['5', '1'] = 51 from rfl, show digitsVal ['5', '8'] = 58 from rfl,
      show digitsVal ['1', '2'] = 12 from rfl, show digitsVal ['0', '0', '0'] = 0 from rfl,
      show digitsVal ['1', '5'] = 15 from rfl, show digitsVal ['5', '0'] = 50 from rfl]

/-- Witness for C1 at the literal `"515812N 0001550W"`. -/
theorem c1_coordinate_formula_witness :
    latlon_to_degrees "515812N 0001550W".data = some (5197 / 100, -(19 / 72)) :=
  (c1_coordinate_formula '5' '1' '5' '8' '1' '2' 'N' '0' '0' '0' '1' '5' '5' '0' 'W'
    (by decide) (Or.inl rfl) (Or.inr rfl)).2

/-- C9: `latlon_to_degrees` never validates the hemisphere letters: for a
16-character literal whose six numeric fields are digits, with arbitrary
characters at positions 6, 7 and 15, the conversion succeeds, the latitude
is non-negative whenever position 6 is not `S`, and the longitude is
non-negative whenever position 15 is not `W`. -/
theorem c9_hemisphere_not_validated
    (a1 a2 b1 b2 c1 c2 : Char) (hlat sep : Char)
    (d1 d2 d3 e1 e2 f1 f2 : Char) (hlon : Char)
    (hd : ∀ c ∈ [a1, a2, b1, b2, c1, c2, d1, d2, d3, e1, e2, f1, f2], c.isDigit) :
    ∃ lat lon,
      latlon_to_degrees
          [a1, a2, b1, b2, c1, c2, hlat, sep, d1, d2, d3, e1, e2, f1, f2, hlon] =
        some (lat, lon) ∧
      (hlat ≠ 'S' → 0 ≤ lat) ∧ (hlon ≠ 'W' → 0 ≤ lon) := by
  refine ⟨_, _, latlon_explicit a1 a2 b1 b2 c1 c2 hlat sep d1 d2 d3 e1 e2 f1 f2 hlon [] hd,
    ?_, ?_⟩
  · intro h
    rw [if_neg h]
    positivity
  · intro h
    rw [if_neg h]
    positivity

/-- Witness for C9: the literal `"515812X 0001550X"` with invalid hemisphere
letters is silently accepted and yields non-negative coordinates. -/
theorem c9_hemisphere_not_validated_witness :
    ∃ lat lon,
      latlon_to_degrees "515812X 0001550X".data = some (lat, lon) ∧ 0 ≤ lat ∧ 0 ≤ lon := by
  obtain ⟨lat, lon, h1, h2, h3⟩ :=
    c9_hemisphere_not_validated '5' '1' '5' '8' '1' '2' 'X' ' ' '0' '0' '0' '1' '5' '5' '0' 'X'
      (by decide)
  exact ⟨lat, lon, h1, h2 (by decide), h3 (by decide)⟩

/-! ## C3, C5: behaviour on malformed literals -/

/-- C3 counterexample: on `"XX5812N 0001550W"` (unparsable latitude degrees
field) `latlon_to_degrees` panics — modelled as `none` — instead of
returning a recoverable MalformedCoordinate error value; and the
17-character literal `"515812N 0001550WZ"` is accepted rather than being
rejected for not having the expected 16-character length. -/
theorem c3_counterexample :
    latlon_to_degrees "XX5812N 0001550W".data = none ∧
    latlon_to_degrees "515812N 0001550WZ".data = some (5197 / 100, -(19 / 72)) := by
  refine ⟨rfl, ?_⟩
  have h := latlon_explicit '5' '1' '5' '8' '1' '2' 'N' ' ' '0' '0' '0' '1' '5' '5' '0' 'W'
    ['Z'] (by decide)
  have e : "515812N 0001550WZ".data = '5' :: '1' :: '5' :: '8' :: '1' :: '2' :: 'N' :: ' ' ::
      '0' :: '0' :: '0' :: '1' :: '5' :: '5' :: '0' :: 'W' :: ['Z'] := rfl
  rw [e, h, if_neg (by decide), if_pos rfl]
  norm_num [show digitsVal ['5', '1'] = 51 from rfl, show digitsVal ['5', '8'] = 58 from rfl,
    show digitsVal ['1', '2'] = 12 from rfl, show digitsVal ['0', '0', '0'] = 0 from rfl,
    show digitsVal ['1', '5'] = 15 from rfl, show digitsVal ['5', '0'] = 50 from rfl]

/-- C3 amended: on a malformed literal — shorter than 16 characters, or with
a numeric field that fails to parse (excluding the non-finite special forms
that lie outside the `ℚ` model) — `latlon_to_degrees` panics, modelled as
`none`, rather than returning a recoverable MalformedCoordinate error;
literals longer than 16 characters with a well-formed prefix are accepted,
not rejected. -/
theorem c3_malformed_coordinate_panics (s : List Char)
    (h : s.length < 16 ∨
      ∃ p ∈ coordSpans,
        parse_f64 (spanSlice s p) = none ∧ is_special_f64 (spanSlice s p) = false) :
    latlon_to_degrees s = none := by
  rcases hv : latlon_to_degrees s with _ | v
  · rfl
  · exfalso
    have hsome := hv
    simp only [latlon_to_degrees, Option.bind_eq_bind, Option.bind_eq_some,
      Option.pure_def, Option.some.injEq] at hsome
    obtain ⟨w1, hw1, q1, hq1, w2, hw2, q2, hq2, w3, hw3, q3, hq3, c6, hc6,
      w4, hw4, q4, hq4, w5, hw5, q5, hq5, w6, hw6, q6, hq6, c15, hc15, -⟩ := hsome
    rcases h with hlen | ⟨p, hp, hparse, -⟩
    · rw [List.getElem?_eq_none (show s.length ≤ 15 by omega)] at hc15
      exact Option.noConfusion hc15
    · simp only [coordSpans, List.mem_cons, List.not_mem_nil, or_false] at hp
      rcases hp with rfl | rfl | rfl | rfl | rfl | rfl
      · rw [slice_inv hw1] at hq1
        rw [hparse] at hq1
        exact Option.noConfusion hq1
      · rw [slice_inv hw2] at hq2
        rw [hparse] at hq2
        exact Option.noConfusion hq2
      · rw [slice_inv hw3] at hq3
        rw [hparse] at hq3
        exact Option.noConfusion hq3
      · rw [slice_inv hw4] at hq4
        rw [hparse] at hq4
        exact Option.noConfusion hq4
      · rw [slice_inv hw5] at hq5
        rw [hparse] at hq5
        exact Option.noConfusion hq5
      · rw [slice_inv hw6] at hq6
        rw [hparse] at hq6
        exact Option.noConfusion hq6

/-- Witness for C3 at the 7-character literal `"515812N"`. -/
theorem c3_malformed_coordinate_panics_witness :
    latlon_to_degrees "515812N".data = none :=
  c3_malformed_coordinate_panics _ (Or.inl (by decide))

/-- C5 counterexample: on `"xx nm"` (unparsable magnitude)
`radius_to_metres` panics — modelled as `none` — instead of returning a
recoverable MalformedDistance error value. -/
theorem c5_counterexample : radius_to_metres "xx nm".data = none := rfl

/-- C5 amended: when the magnitude part (the first space-separated token)
of a distance literal fails to parse (excluding the non-finite special
forms that lie outside the `ℚ` model), `radius_to_metres` panics, modelled
as `none`, rather than returning a recoverable MalformedDistance error. -/
theorem c5_malformed_distance_panics (s : List Char)
    (h : ∃ p0, (splitOnSpace s)[0]? = some p0 ∧ parse_f64 p0 = none ∧
      is_special_f64 p0 = false) :
    radius_to_metres s = none := by
  obtain ⟨p0, hp0, hparse, -⟩ := h
  simp only [radius_to_metres, Option.bind_eq_bind, hp0, Option.some_bind, hparse,
    Option.none_bind]

/-- Witness for C5 at the literal `"zz nm"`. -/
theorem c5_malformed_distance_panics_witness :
    radius_to_metres "zz nm".data = none :=
  c5_malformed_distance_panics _ ⟨"zz".data, by decide, by decide, by decide⟩

/-! ## C2: distance conversion -/

/-- C2: For every distance literal built from a magnitude token, a space
and a unit token, `radius_to_metres` multiplies the magnitude by 1852 when
the unit token is `"nm"` and by 1000 for any other unit token; in
particular `"5 nm"` yields 9260 metres and `"3 km"` yields 3000 metres. -/
theorem c2_distance_conversion (mag unit : List Char) (q : ℚ)
    (hq : parse_f64 mag = some q) (hm : ' ' ∉ mag) (hu : ' ' ∉ unit) :
    radius_to_metres (mag ++ ' ' :: unit) =
      some (if unit = "nm".data then q * 1852 else q * 1000) ∧
    radius_to_metres "5 nm".data = some 9260 ∧
    radius_to_metres "3 km".data = some 3000 := by
  refine ⟨?_, ?_, ?_⟩
  · have hsplit : splitOnSpace (mag ++ ' ' :: unit) = [mag, unit] := by
      rw [splitOnSpace_append mag unit hm, splitOnSpace_no_space unit hu]
    have h0 : ([mag, unit] : List (List Char))[0]? = some mag := rfl
    have h1 : ([mag, unit] : List (List Char))[1]? = some unit := rfl
    simp only [radius_to_metres, hsplit, h0, h1, Option.bind_eq_bind, Option.some_bind, hq]
    split_ifs <;> rfl
  · have h5 : parse_f64 ['5'] = some (digitsVal ['5'] : ℚ) :=
      parse_f64_digits _ (by decide) (by simp)
    have e : splitOnSpace "5 nm".data = [['5'], ['n', 'm']] := rfl
    have h0 : ([['5'], ['n', 'm']] : List (List Char))[0]? = some ['5'] := rfl
    have h1 : ([['5'], ['n', 'm']] : List (List Char))[1]? = some ['n', 'm'] := rfl
    simp only [radius_to_metres, e, h0, h1, Option.bind_eq_bind, Option.some_bind, h5]
    norm_num [Option.pure_def, show digitsVal ['5'] = 5 from rfl]
  · have h3 : parse_f64 ['3'] = some (digitsVal ['3'] : ℚ) :=
      parse_f64_digits _ (by decide) (by simp)
    have e : splitOnSpace "3 km".data = [['3'], ['k', 'm']] := rfl
    have h0 : ([['3'], ['k', 'm']] : List (List Char))[0]? = some ['3'] := rfl
    have h1 : ([['3'], ['k', 'm']] : List (List Char))[1]? = some ['k', 'm'] := rfl
    simp only [radius_to_metres, e, h0, h1, Option.bind_eq_bind, Option.some_bind, h3]
    norm_num [Option.pure_def, show digitsVal ['3'] = 3 from rfl]
    decide

/-- Witness for C2 at the literal `"5 nm"`. -/
theorem c2_distance_conversion_witness :
    radius_to_metres "5 nm".data = some 9260 := by
  have h5 : parse_f64 "5".data = some (digitsVal ['5'] : ℚ) :=
    parse_f64_digits _ (by decide) (by simp)
  have h := (c2_distance_conversion "5".data "nm".data (digitsVal ['5'] : ℚ) h5
    (by decide) (by decide)).1
  rw [show ("5 nm".data : List Char) = "5".data ++ ' ' :: "nm".data from rfl, h, if_pos rfl]
  norm_num [show digitsVal ['5'] = 5 from rfl]

/-! ## C4: presentation-list sorting -/

/-- C4 counterexample: in the sample dataset, whose RAT collection declares
`"RAT B"` before `"RAT A"`, the displayed RAT name list is not sorted —
`MainView` sorts the other three selectable-name lists but never sorts
`rat_names`. -/
theorem c4_counterexample :
    ¬List.Sorted (· ≤ ·) (displayed_rat_names sampleYaixm) := by
  have e : displayed_rat_names sampleYaixm = ["RAT B", "RAT A"] := rfl
  rw [e]
  intro hs
  have h1 : ("RAT B" : String) ≤ "RAT A" :=
    (List.sorted_cons.mp hs).1 _ (List.mem_cons_self _ _)
  have h2 : ¬("RAT B" : String) ≤ "RAT A" := by
    rw [not_le, String.lt_iff_toList_lt]
    decide
  exact h2 h1

/-- C4 amended: the gliding-site, local-agreement and wave-box name lists
are sorted lexicographically before being displayed for selection, while
the temporary-restriction (RAT) name list is displayed in dataset
declaration order, unsorted. -/
theorem c4_presentation_sorting (y : Yaixm) :
    List.Sorted (· ≤ ·) (displayed_gliding_sites y) ∧
    List.Sorted (· ≤ ·) (displayed_loa_names y) ∧
    List.Sorted (· ≤ ·) (displayed_wave_names y) ∧
    displayed_rat_names y = rat_names y :=
  ⟨List.sorted_insertionSort _ _, List.sorted_insertionSort _ _,
    List.sorted_insertionSort _ _, rfl⟩

/-! ## C6, C8, C10: the derived name lists -/

/-- C6: the wave-box name list contains exactly the names of features of
the primary airspace collection classified `D_OTHER` with local type
glider, and nothing else. -/
theorem c6_wave_names_exact (y : Yaixm) (n : String) :
    n ∈ wave_names y ↔
      ∃ f ∈ y.airspace,
        f.icao_type = IcaoType.DOther ∧ f.local_type = some LocalType.Glider ∧
          f.name = n := by
  simp only [wave_names, List.mem_map, List.mem_filter, Bool.and_eq_true, beq_iff_eq]
  constructor
  · rintro ⟨f, ⟨hf, ht, hl⟩, rfl⟩
    exact ⟨f, hf, ht, hl, rfl⟩
  · rintro ⟨f, hf, ht, hl, rfl⟩
    exact ⟨f, ⟨hf, ht, hl⟩, rfl⟩

/-- C8: the selectable local-agreement name list contains exactly the
names of agreements whose default flag is not `true` (an absent flag
counting as `false`), in declaration order: `loa_names` coincides with the
specification-side filter `loa_names_spec`. -/
theorem c8_loa_names_exact (y : Yaixm) : loa_names y = loa_names_spec y := by
  unfold loa_names loa_names_spec
  rw [List.filter_congr ?h]
  case h =>
    intro l _
    cases hld : l.default with
    | none => rfl
    | some b => cases b <;> rfl

/-- C10: the gliding-site list is the name projection of the primary
airspace features with `icao_type = OTHER` and `local_type = GLIDER`, in
declaration order (a sublist of the full name list) and without
deduplication (each name occurs as many times as features match it). -/
theorem c10_gliding_sites_exact (y : Yaixm) (n : String) :
    List.Sublist (gliding_sites y) (y.airspace.map fun x => x.name) ∧
    (gliding_sites y).count n =
      (y.airspace.filter fun f =>
          decide (f.icao_type = IcaoType.Other ∧ f.local_type = some LocalType.Glider ∧
            f.name = n)).length := by
  constructor
  · exact List.Sublist.map _ (List.filter_sublist _)
  · unfold gliding_sites
    rw [List.count_eq_countP, List.countP_map, List.countP_filter,
      ← List.countP_eq_length_filter]
    apply List.countP_congr
    intro f _
    simp only [Function.comp, Bool.and_eq_true, beq_iff_eq, decide_eq_true_eq]
    tauto

/-! ## C7: overlay fallback -/

/-- C7: when an overlay is selected, the download text is the conversion
output `oa` with either the fetched overlay text appended verbatim or, if
the overlay data is unavailable or its fetch failed, a visible placeholder
comment line (starting with `*`) appended in its place; the conversion
output is produced in every case. -/
theorem c7_overlay_fallback (oa : String) (o : Overlay) (ov : Option OverlayData) :
    ∃ t, download_data oa (some o) ov = oa ++ t ∧
      ((∃ d, ov = some d ∧ overlay_pick o d = some t) ∨
        (t.data.head? = some '*' ∧
          (ov = none ∨ ∃ d, ov = some d ∧ overlay_pick o d = none))) := by
  cases ov with
  | none => exact ⟨"* Overlay data not loaded", rfl, Or.inr ⟨rfl, Or.inl rfl⟩⟩
  | some d =>
    cases hp : overlay_pick o d with
    | none =>
      refine ⟨"* Missing overlay data", ?_, Or.inr ⟨rfl, Or.inr ⟨d, rfl, hp⟩⟩⟩
      simp [download_data, overlay_text, hp]
    | some t =>
      refine ⟨t, ?_, Or.inl ⟨d, rfl, hp⟩⟩
      simp [download_data, overlay_text, hp]

end Asselect
